import Mathlib

/-!
Verification of `api/models.py`: the adapter registry, the resource prober,
and the load orchestration of `BaseModelAdapter.load_model`.

The Python source is shallowly embedded: dictionaries become association
lists, CPython object mutation of keyword dictionaries becomes an explicit
store of dictionaries, Python floats become exact rationals, exceptions
become `Except`, and the external `transformers` / `peft` / `torch.cuda`
collaborators become oracle parameters describing only what the code
observes of them.
-/

set_option autoImplicit false

/-! ## Strings: the Python `sub in s` membership test -/

/-- Embeds the check that the character list `pat` is an initial segment of `l`. -/
def matchesAt : List Char → List Char → Bool
  | _, [] => true
  | [], _ :: _ => false
  | c :: cs, d :: ds => c == d && matchesAt cs ds

/-- Embeds the check that `pat` occurs contiguously somewhere in the list. -/
def hasSub (pat : List Char) : List Char → Bool
  | [] => matchesAt [] pat
  | c :: t => matchesAt (c :: t) pat || hasSub pat t

/-- Embeds the Python expression `sub in s` on strings. -/
def str_in (sub s : String) : Bool :=
  hasSub sub.toList s.toList

/-! ## Torch dtypes and dictionary values -/

/-- The torch dtypes that `models.py` mentions. -/
inductive Dtype
  | float32
  | float16
  | bfloat16
  deriving DecidableEq

/-- The values stored in the keyword dictionaries of `models.py`:
booleans, dtypes, Python `None`, strings, and the `max_memory`
mapping from device index to a memory-ceiling string. -/
inductive Value
  | vBool (b : Bool)
  | vDtype (d : Dtype)
  | vNone
  | vStr (s : String)
  | vMaxMemory (m : List (Nat × String))
  deriving DecidableEq

/-- A Python keyword dictionary, as an insertion-ordered association list. -/
abbrev Kwargs := List (String × Value)

/-- Embeds Python `d[k] = v`: overwrite in place, or append a new key. -/
def kwSet (d : Kwargs) (k : String) (v : Value) : Kwargs :=
  if d.any (fun p => p.1 == k) then d.map (fun p => if p.1 == k then (k, v) else p)
  else d ++ [(k, v)]

/-- Embeds Python `k in d`. -/
def kwHasKey (d : Kwargs) (k : String) : Bool :=
  d.any (fun p => p.1 == k)

/-- Embeds Python `d.get(k)` (with `None`-as-absence reported as `none`). -/
def kwGet (d : Kwargs) (k : String) : Option Value :=
  (d.find? (fun p => p.1 == k)).map Prod.snd

/-! ## Adapters and the registry

Each `XxxModelAdapter` class of the source becomes one `Adapter` record,
holding the values of its overridable members.  `name` records the class
name and stands for CPython object identity of the singleton instance that
`register_model_adapter(cls)` creates. -/

/-- Which `transformers` auto-class an adapter builds its model with. -/
inductive ModelClass
  | AutoModelForCausalLM
  | AutoModel
  deriving DecidableEq

/-- One model adapter: the data of a `BaseModelAdapter` subclass instance. -/
structure Adapter where
  name : String
  matchFn : String → Bool
  model_class : ModelClass
  model_kwargs : Kwargs
  tokenizer_kwargs : Kwargs
  default_model_name_or_path : String

/-- The base and default model adapter (`BaseModelAdapter`). -/
def BaseModelAdapter : Adapter where
  name := "BaseModelAdapter"
  matchFn := fun _ => true
  model_class := ModelClass.AutoModelForCausalLM
  model_kwargs := []
  tokenizer_kwargs := [("use_fast", Value.vBool false)]
  default_model_name_or_path := "zpn/llama-7b"

/-- The `ChatglmModelAdapter` instance. -/
def ChatglmModelAdapter : Adapter where
  name := "ChatglmModelAdapter"
  matchFn := fun model_name => str_in "chatglm" model_name
  model_class := ModelClass.AutoModel
  model_kwargs := [("trust_remote_code", Value.vBool true)]
  tokenizer_kwargs := [("use_fast", Value.vBool false), ("trust_remote_code", Value.vBool true)]
  default_model_name_or_path := "THUDM/chatglm-6b"

/-- The `LlamaModelAdapter` instance. -/
def LlamaModelAdapter : Adapter where
  name := "LlamaModelAdapter"
  matchFn := fun model_name =>
    str_in "alpaca" model_name || str_in "baize" model_name || str_in "guanaco" model_name
  model_class := ModelClass.AutoModelForCausalLM
  model_kwargs := [("low_cpu_mem_usage", Value.vBool true)]
  tokenizer_kwargs := [("use_fast", Value.vBool false)]
  default_model_name_or_path := "zpn/llama-7b"

/-- The `MossModelAdapter` instance. -/
def MossModelAdapter : Adapter where
  name := "MossModelAdapter"
  matchFn := fun model_name => str_in "moss" model_name
  model_class := ModelClass.AutoModelForCausalLM
  model_kwargs := [("trust_remote_code", Value.vBool true)]
  tokenizer_kwargs := [("use_fast", Value.vBool false), ("trust_remote_code", Value.vBool true)]
  default_model_name_or_path := "fnlp/moss-moon-003-sft-int4"

/-- The `PhoenixModelAdapter` instance. -/
def PhoenixModelAdapter : Adapter where
  name := "PhoenixModelAdapter"
  matchFn := fun model_name => str_in "phoenix" model_name
  model_class := ModelClass.AutoModelForCausalLM
  model_kwargs := [("low_cpu_mem_usage", Value.vBool true)]
  tokenizer_kwargs := [("use_fast", Value.vBool true)]
  default_model_name_or_path := "FreedomIntelligence/phoenix-inst-chat-7b"

/-- The `FireflyModelAdapter` instance. -/
def FireflyModelAdapter : Adapter where
  name := "FireflyModelAdapter"
  matchFn := fun model_name => str_in "firefly" model_name
  model_class := ModelClass.AutoModelForCausalLM
  model_kwargs := [("torch_dtype", Value.vDtype Dtype.float32)]
  tokenizer_kwargs := [("use_fast", Value.vBool true)]
  default_model_name_or_path := "YeungNLP/firefly-2b6"

/-- The global registry, in the registration order of the source's
trailing `register_model_adapter` calls; the catch-all is last. -/
def model_adapters : List Adapter :=
  [ChatglmModelAdapter, LlamaModelAdapter, MossModelAdapter,
   PhoenixModelAdapter, FireflyModelAdapter, BaseModelAdapter]

/-- Embeds `get_model_adapter`: first registered adapter whose `match`
accepts the identifier; `none` stands for the `ValueError` raise. -/
def get_model_adapter (model_name : String) : Option Adapter :=
  model_adapters.find? (fun adapter => adapter.matchFn model_name)

/-- Embeds the resolution step of the module-level `load_model`, which
lowercases the identifier before consulting the registry. -/
def load_model_resolve (model_name : String) : Option Adapter :=
  get_model_adapter model_name.toLower

/-! ## The resource prober `get_gpu_memory`

`torch.cuda` is embedded as the list of visible devices, each with the two
byte counters the code reads.  One GiB is `1024 ^ 3` bytes; the float
divisions of the source are embedded as exact rational arithmetic. -/

/-- One CUDA device as `get_gpu_memory` observes it: the
`total_memory` property and the `memory_allocated()` counter, in bytes. -/
structure GpuDevice where
  total_memory : Nat
  allocated_memory : Nat
  deriving DecidableEq

/-- The CUDA runtime: its ordered list of visible devices. -/
structure CudaEnv where
  devices : List GpuDevice
  deriving DecidableEq

/-- The loop body of `get_gpu_memory`:
`total_memory / (1024 ** 3) - allocated_memory / (1024 ** 3)`. -/
def availableMemoryGiB (d : GpuDevice) : ℚ :=
  (d.total_memory : ℚ) / 1024 ^ 3 - (d.allocated_memory : ℚ) / 1024 ^ 3

/-- Embeds `get_gpu_memory(max_gpus)`: available memory in GiB for devices
`0 .. num_gpus - 1` where `num_gpus = min(max_gpus, device_count)`
(`device_count` alone when `max_gpus` is `None`). -/
def get_gpu_memory (env : CudaEnv) (max_gpus : Option Nat) : List ℚ :=
  let num_gpus :=
    match max_gpus with
    | none => env.devices.length
    | some m => min m env.devices.length
  (List.range num_gpus).filterMap (fun gpu_id =>
    (env.devices.get? gpu_id).map availableMemoryGiB)

/-! ## The load plan (`model_kwargs`) of `BaseModelAdapter.load_model` -/

/-- Python exceptions that the embedded code raises or catches. -/
inductive PyError
  | osError
  | indexError
  | assertionError
  deriving DecidableEq

/-- Embeds Python `int(...)` applied to a real number: truncation
toward zero. -/
def pyInt (q : ℚ) : Int :=
  if 0 ≤ q then Int.floor q else Int.ceil q

/-- One entry of the `max_memory` comprehension:
`str(int(available_gpu_memory[i] * 0.85)) + "GiB"`. -/
def gibEntry (q : ℚ) : String :=
  toString (pyInt (q * (0.85 : ℚ))) ++ "GiB"

/-- Embeds the dict comprehension
`{i: str(int(available_gpu_memory[i] * 0.85)) + "GiB" for i in range(num_gpus)}`;
`none` stands for the `IndexError` raised when `i` is out of range. -/
def max_memory_entries (available_gpu_memory : List ℚ) (num_gpus : Nat) :
    Option (List (Nat × String)) :=
  List.mapM' (fun i => (available_gpu_memory.get? i).map (fun m => (i, gibEntry m)))
    (List.range num_gpus)

/-- Embeds lines 74-98 of `load_model`: starting from the adapter's
`model_kwargs`, apply the device / multi-GPU / quantization updates in
source order.  The result is the final dictionary value, or the
`IndexError` escaping the `max_memory` comprehension. -/
def build_model_kwargs (adapter : Adapter) (env : CudaEnv) (device : String)
    (num_gpus : Nat) (load_in_8bit load_in_4bit : Bool) : Except PyError Kwargs :=
  let model_kwargs := adapter.model_kwargs
  if device = "cpu" then
    Except.ok (kwSet model_kwargs "torch_dtype" (Value.vDtype Dtype.float32))
  else
    let model_kwargs :=
      if kwHasKey model_kwargs "torch_dtype" then model_kwargs
      else kwSet model_kwargs "torch_dtype" (Value.vDtype Dtype.float16)
    let step : Except PyError Kwargs :=
      if num_gpus ≠ 1 then
        let model_kwargs := kwSet model_kwargs "device_map" (Value.vStr "auto")
        let model_kwargs := kwSet model_kwargs "device_map" (Value.vStr "sequential")
        let available_gpu_memory := get_gpu_memory env (some num_gpus)
        match max_memory_entries available_gpu_memory num_gpus with
        | none => Except.error PyError.indexError
        | some mm => Except.ok (kwSet model_kwargs "max_memory" (Value.vMaxMemory mm))
      else Except.ok model_kwargs
    match step with
    | Except.error e => Except.error e
    | Except.ok model_kwargs =>
      if load_in_8bit || load_in_4bit then
        Except.ok (kwSet (kwSet (kwSet (kwSet model_kwargs
          "torch_dtype" Value.vNone)
          "load_in_8bit" (Value.vBool load_in_8bit))
          "load_in_4bit" (Value.vBool load_in_4bit))
          "device_map" (Value.vStr "auto"))
      else Except.ok model_kwargs

/-! ## The same computation over an explicit store of dictionary objects

In CPython, `model_kwargs` is a dict object mutated in place; whether the
mutation leaks across calls depends on `self.model_kwargs` returning a
fresh dict on each property access (it does: every override returns a dict
literal).  `Store` makes the object layer explicit: addresses are indices,
`alloc` is the fresh dict literal of the property, and every
`model_kwargs[k] = v` statement is an `update` at the allocated address. -/

/-- The dict objects alive in the interpreter, addressed by index. -/
structure Store where
  dicts : List Kwargs
  deriving DecidableEq

/-- Allocate a fresh dict object; returns the new store and its address. -/
def Store.alloc (s : Store) (d : Kwargs) : Store × Nat :=
  (⟨s.dicts ++ [d]⟩, s.dicts.length)

/-- Dereference an address. -/
def Store.read (s : Store) (a : Nat) : Kwargs :=
  (s.dicts.get? a).getD []

/-- Overwrite the object at an address. -/
def Store.write (s : Store) (a : Nat) (d : Kwargs) : Store :=
  ⟨s.dicts.set a d⟩

/-- In-place mutation of the object at an address. -/
def Store.update (s : Store) (a : Nat) (f : Kwargs → Kwargs) : Store :=
  s.write a (f (s.read a))

/-- Lines 74-98 of `load_model` again, at the object level: allocate the
fresh dict that the `model_kwargs` property returns, then perform every
`model_kwargs[...] = ...` statement as an in-place update of that object.
Returns the final store and the address of the dict (or the `IndexError`). -/
def build_model_kwargs_st (s : Store) (adapter : Adapter) (env : CudaEnv)
    (device : String) (num_gpus : Nat) (load_in_8bit load_in_4bit : Bool) :
    Store × Except PyError Nat :=
  let p := Store.alloc s adapter.model_kwargs
  let s := p.1
  let mk := p.2
  if device = "cpu" then
    (Store.update s mk (fun d => kwSet d "torch_dtype" (Value.vDtype Dtype.float32)),
     Except.ok mk)
  else
    let s :=
      if kwHasKey (Store.read s mk) "torch_dtype" then s
      else Store.update s mk (fun d => kwSet d "torch_dtype" (Value.vDtype Dtype.float16))
    let step : Store × Bool :=
      if num_gpus ≠ 1 then
        let s := Store.update s mk (fun d => kwSet d "device_map" (Value.vStr "auto"))
        let s := Store.update s mk (fun d => kwSet d "device_map" (Value.vStr "sequential"))
        let available_gpu_memory := get_gpu_memory env (some num_gpus)
        match max_memory_entries available_gpu_memory num_gpus with
        | none => (s, false)
        | some mm => (Store.update s mk (fun d => kwSet d "max_memory" (Value.vMaxMemory mm)), true)
      else (s, true)
    let s := step.1
    if step.2 then
      let s :=
        if load_in_8bit || load_in_4bit then
          Store.update s mk (fun d => kwSet (kwSet (kwSet (kwSet d
            "torch_dtype" Value.vNone)
            "load_in_8bit" (Value.vBool load_in_8bit))
            "load_in_4bit" (Value.vBool load_in_4bit))
            "device_map" (Value.vStr "auto"))
        else s
      (s, Except.ok mk)
    else (s, Except.error PyError.indexError)

/-! ## Model construction, tokenizer fallback, vocabulary reconciliation -/

/-- The `BitsAndBytesConfig` passed on the 4-bit path. -/
structure BitsAndBytesConfig where
  load_in_4bit : Bool
  bnb_4bit_compute_dtype : Dtype
  bnb_4bit_use_double_quant : Bool
  bnb_4bit_quant_type : String
  deriving DecidableEq

/-- The shape of the single `from_pretrained` model-construction call the
code performs: either the dedicated quantized invocation (fixed dtype and
quantization config, no other kwargs) or the general invocation with the
merged `model_kwargs`. -/
inductive ModelCall
  | quantized (model_name_or_path : String) (torch_dtype : Dtype)
      (quantization_config : BitsAndBytesConfig)
  | general (model_name_or_path : String) (model_kwargs : Kwargs)
  deriving DecidableEq

/-- Embeds lines 100-115 of `load_model`: choose the 4-bit construction
call or the general one. -/
def construct_model_call (model_name_or_path : String) (model_kwargs : Kwargs)
    (load_in_4bit : Bool) : ModelCall :=
  if load_in_4bit then
    ModelCall.quantized model_name_or_path Dtype.bfloat16
      { load_in_4bit := true
        bnb_4bit_compute_dtype := Dtype.bfloat16
        bnb_4bit_use_double_quant := true
        bnb_4bit_quant_type := "nf4" }
  else
    ModelCall.general model_name_or_path model_kwargs

/-- Embeds the tokenizer construction of lines 61-67: when an
`adapter_model` is supplied, try it first and fall back to
`model_name_or_path` only on `OSError`; otherwise construct directly.
`from_pretrained` is the external `AutoTokenizer.from_pretrained` oracle
(already closed over the adapter's `tokenizer_kwargs`); tokenizers are
identified by opaque handles. -/
def tokenizer_with_fallback (from_pretrained : String → Except PyError Nat)
    (model_name_or_path : String) (adapter_model : Option String) :
    Except PyError Nat :=
  match adapter_model with
  | some am =>
    match from_pretrained am with
    | Except.ok tokenizer => Except.ok tokenizer
    | Except.error PyError.osError => from_pretrained model_name_or_path
    | Except.error e => Except.error e
  | none => from_pretrained model_name_or_path

/-- What the vocabulary-reconciliation block does to the model. -/
inductive VocabAction
  | noop
  | resize (n : Nat)
  deriving DecidableEq

/-- Embeds lines 119-131 of `load_model`: when an `adapter_model` was
supplied and the constructed model is not a chatglm, compare vocabulary
sizes; resize on a strictly larger tokenizer vocabulary, fail the
`assert` when the model vocabulary is strictly larger. -/
def vocab_reconciliation (adapter_model : Option String) (is_chatglm : Bool)
    (model_vocab_size tokenzier_vocab_size : Nat) : Except PyError VocabAction :=
  match adapter_model with
  | none => Except.ok VocabAction.noop
  | some _ =>
    if is_chatglm then Except.ok VocabAction.noop
    else
      if model_vocab_size ≠ tokenzier_vocab_size then
        if tokenzier_vocab_size > model_vocab_size then
          Except.ok (VocabAction.resize tokenzier_vocab_size)
        else Except.error PyError.assertionError
      else Except.ok VocabAction.noop

/-! ## The whole of `BaseModelAdapter.load_model` -/

/-- The external collaborators of one `load_model` call: the CUDA runtime,
the tokenizer builder (a handle-returning oracle taking the location and
the adapter's `tokenizer_kwargs`), `len(tokenizer)`, the constructed
model's input-embedding vocabulary size, and whether `"chatglm"` occurs in
`str(type(model))`. -/
structure World where
  cuda : CudaEnv
  tokenizer_from_pretrained : String → Kwargs → Except PyError Nat
  tokenizer_len : Nat → Nat
  model_vocab_size : Nat
  is_chatglm : Bool

/-- The observable outcome of a successful `load_model` call. -/
structure LoadResult where
  tokenizer : Nat
  model_kwargs : Kwargs
  model_call : ModelCall
  vocab_action : VocabAction
  peft_torch_dtype : Option Value
  chatglm_quantize : Option Int
  moved_to : Option String
  eval_mode : Bool
  deriving DecidableEq

/-- Embeds `BaseModelAdapter.load_model` end to end, in source order:
default location, tokenizer with fallback, load-plan construction, model
construction call, vocabulary reconciliation, the dtype handed to
`PeftModel.from_pretrained` when an `adapter_model` is merged, the chatglm
post-quantization, the single-GPU device move, and `model.eval()`. -/
def adapter_load_model (w : World) (adapter : Adapter)
    (model_name_or_path : Option String) (adapter_model : Option String)
    (device : String) (num_gpus : Nat) (load_in_8bit load_in_4bit : Bool)
    (quantize : Option Int) : Except PyError LoadResult :=
  let model_name_or_path :=
    match model_name_or_path with
    | none => adapter.default_model_name_or_path
    | some p => p
  match tokenizer_with_fallback
      (fun p => w.tokenizer_from_pretrained p adapter.tokenizer_kwargs)
      model_name_or_path adapter_model with
  | Except.error e => Except.error e
  | Except.ok tokenizer =>
    match build_model_kwargs adapter w.cuda device num_gpus load_in_8bit load_in_4bit with
    | Except.error e => Except.error e
    | Except.ok model_kwargs =>
      let model_call := construct_model_call model_name_or_path model_kwargs load_in_4bit
      let is_chatglm := w.is_chatglm
      match vocab_reconciliation adapter_model is_chatglm
          w.model_vocab_size (w.tokenizer_len tokenizer) with
      | Except.error e => Except.error e
      | Except.ok vocab_action =>
        let peft_torch_dtype :=
          match adapter_model with
          | none => none
          | some _ => some ((kwGet model_kwargs "torch_dtype").getD (Value.vDtype Dtype.float16))
        let chatglm_quantize :=
          if is_chatglm then
            match quantize with
            | none => none
            | some q => if q ≠ 0 ∧ q ≠ 16 then some q else none
          else none
        let moved_to :=
          if device ≠ "cpu" ∧ load_in_4bit = false ∧ load_in_8bit = false ∧ num_gpus = 1 then
            some device
          else none
        Except.ok
          { tokenizer := tokenizer
            model_kwargs := model_kwargs
            model_call := model_call
            vocab_action := vocab_action
            peft_torch_dtype := peft_torch_dtype
            chatglm_quantize := chatglm_quantize
            moved_to := moved_to
            eval_mode := true }

/-! ## Dictionary lemmas -/

theorem kwGet_kwSet_self (d : Kwargs) (k : String) (v : Value) :
    kwGet (kwSet d k v) k = some v := by
  unfold kwSet
  split
  case isTrue h =>
    induction d with
    | nil => simp at h
    | cons p t ih =>
      simp only [List.map_cons, kwGet, List.find?]
      by_cases hp : p.1 == k
      · simp [hp]
      · simp only [hp, if_neg, Bool.false_eq_true, ite_false]
        simp only [List.any_cons, hp, Bool.false_or] at h
        have := ih h
        simpa [kwGet, hp] using this
  case isFalse h =>
    induction d with
    | nil => simp [kwGet]
    | cons p t ih =>
      simp only [List.any_cons, Bool.or_eq_true, not_or] at h
      simp only [kwGet, List.cons_append, List.find?]
      rw [Bool.not_eq_true] at h
      simp only [h.1]
      have := ih (by simp [h.2])
      simpa [kwGet] using this

theorem kwGet_kwSet_ne (d : Kwargs) (k q : String) (v : Value) (h : q ≠ k) :
    kwGet (kwSet d k v) q = kwGet d q := by
  unfold kwSet
  split
  case isTrue hany =>
    clear hany
    induction d with
    | nil => simp
    | cons p t ih =>
      simp only [List.map_cons, kwGet, List.find?]
      by_cases hp : p.1 == k
      · have hpk : p.1 = k := by simpa using hp
        have h1 : ((k, v).1 == q) = false := by simp [Ne.symm h]
        have h2 : (p.1 == q) = false := by simp [hpk, Ne.symm h]
        simp only [hp, ite_true, h1, h2]
        simpa [kwGet] using ih
      · simp only [hp, Bool.false_eq_true, ite_false]
        by_cases hq : p.1 == q
        · simp [hq]
        · simp only [hq, Bool.false_eq_true]
          simpa [kwGet, hq] using ih
  case isFalse hany =>
    induction d with
    | nil =>
      have : ((k, v).1 == q) = false := by simp [Ne.symm h]
      simp [kwGet, this]
    | cons p t ih =>
      simp only [List.any_cons, Bool.or_eq_true, not_or] at hany
      simp only [kwGet, List.cons_append, List.find?]
      by_cases hq : p.1 == q
      · simp [hq]
      · simp only [hq, Bool.false_eq_true]
        have := ih (by simp [hany.2])
        simpa [kwGet, hq] using this

theorem kwHasKey_kwSet_ne (d : Kwargs) (k q : String) (v : Value) (h : q ≠ k) :
    kwHasKey (kwSet d k v) q = kwHasKey d q := by
  unfold kwSet
  split
  case isTrue hany =>
    clear hany
    induction d with
    | nil => simp
    | cons p t ih =>
      simp only [List.map_cons, kwHasKey, List.any_cons]
      by_cases hp : p.1 == k
      · have hpk : p.1 = k := by simpa using hp
        have h1 : ((k, v).1 == q) = false := by simp [Ne.symm h]
        have h2 : (p.1 == q) = false := by simp [hpk, Ne.symm h]
        simp only [hp, ite_true, h1, h2]
        simpa [kwHasKey] using ih
      · simp only [hp, Bool.false_eq_true, ite_false]
        simp only [kwHasKey, List.any_cons] at ih ⊢
        rw [ih]
  case isFalse hany =>
    have : ((k, v).1 == q) = false := by simp [Ne.symm h]
    simp [kwHasKey, this]

theorem kwGet_eq_none_of_not_hasKey (d : Kwargs) (k : String)
    (h : kwHasKey d k = false) : kwGet d k = none := by
  induction d with
  | nil => simp [kwGet]
  | cons p t ih =>
    simp only [kwHasKey, List.any_cons, Bool.or_eq_false_iff] at h
    simp only [kwGet, List.find?, h.1]
    exact ih (by simp [kwHasKey, h.2])

/-! ## Claim C1: registry resolution -/

theorem adapter_ne_of_name {a b : Adapter} (h : a.name ≠ b.name) : a ≠ b :=
  fun hh => h (congrArg Adapter.name hh)


theorem get_model_adapter_first_match (s : String) :
    (∃ a, get_model_adapter s = some a) ∧
    (∀ a, get_model_adapter s = some a →
      a.matchFn s = true ∧
      ∃ l₁ l₂, model_adapters = l₁ ++ a :: l₂ ∧ ∀ b ∈ l₁, b.matchFn s = false) ∧
    (get_model_adapter s = some BaseModelAdapter ↔
      (ChatglmModelAdapter.matchFn s = false ∧ LlamaModelAdapter.matchFn s = false ∧
       MossModelAdapter.matchFn s = false ∧ PhoenixModelAdapter.matchFn s = false ∧
       FireflyModelAdapter.matchFn s = false)) := by
  have hb : BaseModelAdapter.matchFn s = true := rfl
  by_cases h1 : ChatglmModelAdapter.matchFn s = true
  · have hres : get_model_adapter s = some ChatglmModelAdapter := by
      simp [get_model_adapter, model_adapters, List.find?, h1]
    refine ⟨⟨_, hres⟩, ?_, ?_⟩
    · intro a ha
      obtain rfl : ChatglmModelAdapter = a := Option.some.inj (hres.symm.trans ha)
      exact ⟨h1, [], _, rfl, by simp⟩
    · constructor
      · intro hbad
        exact absurd (Option.some.inj (hres.symm.trans hbad))
          (adapter_ne_of_name (by decide))
      · rintro ⟨hc, -⟩
        exact absurd h1 (by simp [hc])
  · replace h1 := Bool.not_eq_true _ ▸ h1
    by_cases h2 : LlamaModelAdapter.matchFn s = true
    · have hres : get_model_adapter s = some LlamaModelAdapter := by
        simp [get_model_adapter, model_adapters, List.find?, h1, h2]
      refine ⟨⟨_, hres⟩, ?_, ?_⟩
      · intro a ha
        obtain rfl : LlamaModelAdapter = a := Option.some.inj (hres.symm.trans ha)
        refine ⟨h2, [ChatglmModelAdapter], _, rfl, ?_⟩
        intro b hbm
        simp only [List.mem_cons, List.not_mem_nil, or_false] at hbm
        rcases hbm with rfl
        exact h1
      · constructor
        · intro hbad
          exact absurd (Option.some.inj (hres.symm.trans hbad))
            (adapter_ne_of_name (by decide))
        · rintro ⟨-, hl, -⟩
          exact absurd h2 (by simp [hl])
    · replace h2 := Bool.not_eq_true _ ▸ h2
      by_cases h3 : MossModelAdapter.matchFn s = true
      · have hres : get_model_adapter s = some MossModelAdapter := by
          simp [get_model_adapter, model_adapters, List.find?, h1, h2, h3]
        refine ⟨⟨_, hres⟩, ?_, ?_⟩
        · intro a ha
          obtain rfl : MossModelAdapter = a := Option.some.inj (hres.symm.trans ha)
          refine ⟨h3, [ChatglmModelAdapter, LlamaModelAdapter], _, rfl, ?_⟩
          intro b hbm
          simp only [List.mem_cons, List.not_mem_nil, or_false] at hbm
          rcases hbm with rfl | rfl
          · exact h1
          · exact h2
        · constructor
          · intro hbad
            exact absurd (Option.some.inj (hres.symm.trans hbad))
              (adapter_ne_of_name (by decide))
          · rintro ⟨-, -, hm, -⟩
            exact absurd h3 (by simp [hm])
      · replace h3 := Bool.not_eq_true _ ▸ h3
        by_cases h4 : PhoenixModelAdapter.matchFn s = true
        · have hres : get_model_adapter s = some PhoenixModelAdapter := by
            simp [get_model_adapter, model_adapters, List.find?, h1, h2, h3, h4]
          refine ⟨⟨_, hres⟩, ?_, ?_⟩
          · intro a ha
            obtain rfl : PhoenixModelAdapter = a := Option.some.inj (hres.symm.trans ha)
            refine ⟨h4, [ChatglmModelAdapter, LlamaModelAdapter, MossModelAdapter], _, rfl, ?_⟩
            intro b hbm
            simp only [List.mem_cons, List.not_mem_nil, or_false] at hbm
            rcases hbm with rfl | rfl | rfl
            · exact h1
            · exact h2
            · exact h3
          · constructor
            · intro hbad
              exact absurd (Option.some.inj (hres.symm.trans hbad))
                (adapter_ne_of_name (by decide))
            · rintro ⟨-, -, -, hp, -⟩
              exact absurd h4 (by simp [hp])
        · replace h4 := Bool.not_eq_true _ ▸ h4
          by_cases h5 : FireflyModelAdapter.matchFn s = true
          · have hres : get_model_adapter s = some FireflyModelAdapter := by
              simp [get_model_adapter, model_adapters, List.find?, h1, h2, h3, h4, h5]
            refine ⟨⟨_, hres⟩, ?_, ?_⟩
            · intro a ha
              obtain rfl : FireflyModelAdapter = a := Option.some.inj (hres.symm.trans ha)
              refine ⟨h5, [ChatglmModelAdapter, LlamaModelAdapter, MossModelAdapter,
                PhoenixModelAdapter], _, rfl, ?_⟩
              intro b hbm
              simp only [List.mem_cons, List.not_mem_nil, or_false] at hbm
              rcases hbm with rfl | rfl | rfl | rfl
              · exact h1
              · exact h2
              · exact h3
              · exact h4
            · constructor
              · intro hbad
                exact absurd (Option.some.inj (hres.symm.trans hbad))
                  (adapter_ne_of_name (by decide))
              · rintro ⟨-, -, -, -, hf⟩
                exact absurd h5 (by simp [hf])
          · replace h5 := Bool.not_eq_true _ ▸ h5
            have hres : get_model_adapter s = some BaseModelAdapter := by
              simp [get_model_adapter, model_adapters, List.find?, h1, h2, h3, h4, h5, hb]
            refine ⟨⟨_, hres⟩, ?_, ?_⟩
            · intro a ha
              obtain rfl : BaseModelAdapter = a := Option.some.inj (hres.symm.trans ha)
              refine ⟨hb, [ChatglmModelAdapter, LlamaModelAdapter, MossModelAdapter,
                PhoenixModelAdapter, FireflyModelAdapter], _, rfl, ?_⟩
              intro b hbm
              simp only [List.mem_cons, List.not_mem_nil, or_false] at hbm
              rcases hbm with rfl | rfl | rfl | rfl | rfl
              · exact h1
              · exact h2
              · exact h3
              · exact h4
              · exact h5
            · exact ⟨fun _ => ⟨h1, h2, h3, h4, h5⟩, fun _ => hres⟩

/-- Claim C1: for every identifier, resolution returns the first adapter in
registration order whose match predicate accepts the lowercased identifier;
the catch-all `BaseModelAdapter` is returned exactly when no family-specific
adapter matches; and resolving the same identifier twice returns the same
adapter. -/
theorem C1_registry_resolution (model_name : String) :
    (∃ a, load_model_resolve model_name = some a) ∧
    (∀ a, load_model_resolve model_name = some a →
      a.matchFn model_name.toLower = true ∧
      ∃ l₁ l₂, model_adapters = l₁ ++ a :: l₂ ∧
        ∀ b ∈ l₁, b.matchFn model_name.toLower = false) ∧
    (load_model_resolve model_name = some BaseModelAdapter ↔
      (ChatglmModelAdapter.matchFn model_name.toLower = false ∧
       LlamaModelAdapter.matchFn model_name.toLower = false ∧
       MossModelAdapter.matchFn model_name.toLower = false ∧
       PhoenixModelAdapter.matchFn model_name.toLower = false ∧
       FireflyModelAdapter.matchFn model_name.toLower = false)) ∧
    load_model_resolve model_name = load_model_resolve model_name := by
  have h := get_model_adapter_first_match model_name.toLower
  exact ⟨h.1, h.2.1, h.2.2, rfl⟩

/-! ## Prober lemmas and Claim C8 -/

theorem range_filterMap_take {α β : Type _} (l : List α) (f : α → β) :
    ∀ n, n ≤ l.length →
      (List.range n).filterMap (fun i => (l.get? i).map f) = (l.take n).map f := by
  intro n
  induction n with
  | zero => simp
  | succ m ih =>
    intro h
    have hm : m < l.length := h
    rw [List.range_succ, List.filterMap_append, ih (Nat.le_of_succ_le h), List.take_succ]
    have hm2 : m < (List.map f l).length := by simpa using hm
    simp [List.filterMap_cons, List.get?_eq_getElem?, List.getElem?_eq_getElem hm]
    rw [List.take_succ]
    simp [List.getElem?_eq_getElem hm2]

theorem get_gpu_memory_eq (env : CudaEnv) (max_gpus : Option Nat) :
    get_gpu_memory env max_gpus =
      (env.devices.take (match max_gpus with
        | none => env.devices.length
        | some m => min m env.devices.length)).map availableMemoryGiB := by
  unfold get_gpu_memory
  apply range_filterMap_take
  cases max_gpus <;> simp

theorem length_get_gpu_memory (env : CudaEnv) (m : Nat) :
    (get_gpu_memory env (some m)).length = min m env.devices.length := by
  rw [get_gpu_memory_eq]
  simp [Nat.min_assoc]

/-- Claim C8: the prober returns exactly `min(detected device count,
max_devices)` entries (all devices when `max_devices` is absent), in
ascending device order, entry `i` being device `i`'s total capacity minus
its allocated memory, both divided into GiB; a zero-device environment
yields the empty sequence. -/
theorem C8_resource_prober (env : CudaEnv) (max_gpus : Option Nat) :
    ((get_gpu_memory env none).length = env.devices.length) ∧
    (∀ m, (get_gpu_memory env (some m)).length = min m env.devices.length) ∧
    (∀ i (h : i < (get_gpu_memory env max_gpus).length) (hd : i < env.devices.length),
      (get_gpu_memory env max_gpus).get ⟨i, h⟩
        = ((env.devices.get ⟨i, hd⟩).total_memory : ℚ) / 1024 ^ 3
          - ((env.devices.get ⟨i, hd⟩).allocated_memory : ℚ) / 1024 ^ 3) ∧
    (env.devices = [] → get_gpu_memory env max_gpus = []) := by
  refine ⟨by rw [get_gpu_memory_eq]; simp, length_get_gpu_memory env, ?_, ?_⟩
  · intro i h hd
    have hrw := get_gpu_memory_eq env max_gpus
    rcases max_gpus with - | m <;>
      simp [List.get_eq_getElem, hrw, availableMemoryGiB, List.getElem_take]
  · intro hdev
    rw [get_gpu_memory_eq, hdev]
    simp

/-! ## `mapM` over `Option` and the `max_memory` comprehension -/

theorem mapM_option_some {α β : Type _} (f : α → Option β) :
    ∀ (l : List α), (∀ a ∈ l, (f a).isSome) →
      ∃ r, List.mapM' f l = some r ∧ r.length = l.length ∧
        ∀ i (h : i < l.length) (h2 : i < r.length),
          f (l.get ⟨i, h⟩) = some (r.get ⟨i, h2⟩) := by
  intro l
  induction l with
  | nil => exact fun _ => ⟨[], rfl, rfl, by simp⟩
  | cons a t ih =>
    intro h
    obtain ⟨b, hb⟩ := Option.isSome_iff_exists.mp (h a (by simp))
    obtain ⟨r, hr, hlen, hget⟩ := ih (fun x hx => h x (by simp [hx]))
    refine ⟨b :: r, ?_, by simp [hlen], ?_⟩
    · rw [List.mapM'_cons]
      simp only [hb, hr, Option.bind_eq_bind, Option.some_bind]
      rfl
    · intro i hi h2
      cases i with
      | zero => simpa using hb
      | succ j => simpa using hget j (Nat.lt_of_succ_lt_succ hi) (Nat.lt_of_succ_lt_succ h2)

theorem mapM_option_none {α β : Type _} (f : α → Option β) :
    ∀ (l : List α) (a : α), a ∈ l → f a = none → List.mapM' f l = none := by
  intro l
  induction l with
  | nil => simp
  | cons b t ih =>
    intro a ha hfa
    rw [List.mapM'_cons]
    rcases List.mem_cons.mp ha with rfl | hat
    · simp [hfa]
    · have ht := ih a hat hfa
      cases hfb : f b
      · simp
      · simp [ht, hfb]

theorem max_memory_entries_none (mem : List ℚ) (n : Nat) (h : mem.length < n) :
    max_memory_entries mem n = none := by
  apply mapM_option_none _ _ mem.length (List.mem_range.mpr h)
  simp [List.get?_eq_none.mpr (le_refl mem.length)]

theorem max_memory_entries_some (mem : List ℚ) (n : Nat) (h : n ≤ mem.length) :
    ∃ mm, max_memory_entries mem n = some mm ∧ mm.length = n ∧
      ∀ i (h2 : i < mm.length) (h3 : i < mem.length),
        mm.get ⟨i, h2⟩ = (i, gibEntry (mem.get ⟨i, h3⟩)) := by
  obtain ⟨r, hr, hlen, hget⟩ :=
    mapM_option_some (fun i => (mem.get? i).map (fun m => (i, gibEntry m))) (List.range n)
      (by
        intro a ha
        have : a < mem.length := lt_of_lt_of_le (List.mem_range.mp ha) h
        simp [List.get?_eq_getElem?, List.getElem?_eq_getElem this])
  rw [List.length_range] at hlen
  refine ⟨r, hr, hlen, ?_⟩
  intro i h2 h3
  have hi : i < n := hlen ▸ h2
  have hir : i < (List.range n).length := by simpa using hi
  have := hget i hir (by simpa [hlen] using hi)
  rw [List.get_eq_getElem, List.getElem_range] at this
  rw [List.get?_eq_getElem?, List.getElem?_eq_getElem h3] at this
  simp only [Option.map_some] at this
  exact (Option.some.inj this).symm ▸ rfl

/-! ## Shape of `build_model_kwargs` in each branch -/

theorem build_model_kwargs_cpu (adapter : Adapter) (env : CudaEnv) (num_gpus : Nat)
    (load_in_8bit load_in_4bit : Bool) :
    build_model_kwargs adapter env "cpu" num_gpus load_in_8bit load_in_4bit
      = Except.ok (kwSet adapter.model_kwargs "torch_dtype" (Value.vDtype Dtype.float32)) := by
  simp [build_model_kwargs]

theorem build_model_kwargs_single (adapter : Adapter) (env : CudaEnv) (device : String)
    (load_in_8bit load_in_4bit : Bool) (hdev : device ≠ "cpu") :
    build_model_kwargs adapter env device 1 load_in_8bit load_in_4bit
      = (if load_in_8bit || load_in_4bit then
          Except.ok (kwSet (kwSet (kwSet (kwSet
            (if kwHasKey adapter.model_kwargs "torch_dtype" then adapter.model_kwargs
             else kwSet adapter.model_kwargs "torch_dtype" (Value.vDtype Dtype.float16))
            "torch_dtype" Value.vNone)
            "load_in_8bit" (Value.vBool load_in_8bit))
            "load_in_4bit" (Value.vBool load_in_4bit))
            "device_map" (Value.vStr "auto"))
        else
          Except.ok (if kwHasKey adapter.model_kwargs "torch_dtype" then adapter.model_kwargs
            else kwSet adapter.model_kwargs "torch_dtype" (Value.vDtype Dtype.float16))) := by
  simp [build_model_kwargs, hdev]

theorem build_model_kwargs_multi (adapter : Adapter) (env : CudaEnv) (device : String)
    (num_gpus : Nat) (load_in_8bit load_in_4bit : Bool) (mm : List (Nat × String))
    (hdev : device ≠ "cpu") (hn : num_gpus ≠ 1)
    (hmm : max_memory_entries (get_gpu_memory env (some num_gpus)) num_gpus = some mm) :
    build_model_kwargs adapter env device num_gpus load_in_8bit load_in_4bit
      = (if load_in_8bit || load_in_4bit then
          Except.ok (kwSet (kwSet (kwSet (kwSet (kwSet (kwSet (kwSet
            (if kwHasKey adapter.model_kwargs "torch_dtype" then adapter.model_kwargs
             else kwSet adapter.model_kwargs "torch_dtype" (Value.vDtype Dtype.float16))
            "device_map" (Value.vStr "auto"))
            "device_map" (Value.vStr "sequential"))
            "max_memory" (Value.vMaxMemory mm))
            "torch_dtype" Value.vNone)
            "load_in_8bit" (Value.vBool load_in_8bit))
            "load_in_4bit" (Value.vBool load_in_4bit))
            "device_map" (Value.vStr "auto"))
        else
          Except.ok (kwSet (kwSet (kwSet
            (if kwHasKey adapter.model_kwargs "torch_dtype" then adapter.model_kwargs
             else kwSet adapter.model_kwargs "torch_dtype" (Value.vDtype Dtype.float16))
            "device_map" (Value.vStr "auto"))
            "device_map" (Value.vStr "sequential"))
            "max_memory" (Value.vMaxMemory mm))) := by
  simp [build_model_kwargs, hdev, hn, hmm]

theorem build_model_kwargs_multi_err (adapter : Adapter) (env : CudaEnv) (device : String)
    (num_gpus : Nat) (load_in_8bit load_in_4bit : Bool)
    (hdev : device ≠ "cpu") (hn : num_gpus ≠ 1)
    (hmm : max_memory_entries (get_gpu_memory env (some num_gpus)) num_gpus = none) :
    build_model_kwargs adapter env device num_gpus load_in_8bit load_in_4bit
      = Except.error PyError.indexError := by
  simp [build_model_kwargs, hdev, hn, hmm]

/-! ## String-key disequalities used when tracing dictionary updates -/

theorem ne_td_dm : ("torch_dtype" : String) ≠ "device_map" := by decide

theorem ne_td_l8 : ("torch_dtype" : String) ≠ "load_in_8bit" := by decide

theorem ne_td_l4 : ("torch_dtype" : String) ≠ "load_in_4bit" := by decide

theorem ne_td_mm : ("torch_dtype" : String) ≠ "max_memory" := by decide

theorem ne_dm_td : ("device_map" : String) ≠ "torch_dtype" := by decide

theorem ne_dm_l8 : ("device_map" : String) ≠ "load_in_8bit" := by decide

theorem ne_dm_l4 : ("device_map" : String) ≠ "load_in_4bit" := by decide

theorem ne_dm_mm : ("device_map" : String) ≠ "max_memory" := by decide

theorem ne_mm_td : ("max_memory" : String) ≠ "torch_dtype" := by decide

theorem ne_mm_dm : ("max_memory" : String) ≠ "device_map" := by decide

theorem ne_mm_l8 : ("max_memory" : String) ≠ "load_in_8bit" := by decide

theorem ne_mm_l4 : ("max_memory" : String) ≠ "load_in_4bit" := by decide

theorem ne_l8_td : ("load_in_8bit" : String) ≠ "torch_dtype" := by decide

theorem ne_l4_td : ("load_in_4bit" : String) ≠ "torch_dtype" := by decide

/-! ## Claim C2: multi-GPU memory ceilings and device map -/

/-- A two-device environment: 20 GiB and 10 GiB totals, nothing allocated. -/
def envW : CudaEnv :=
  ⟨[⟨20 * 1024 ^ 3, 0⟩, ⟨10 * 1024 ^ 3, 0⟩]⟩

/-- Counterexample to claim C2 as stated: with `num_gpus = 2` and 8-bit
quantization requested, the final `device_map` is `"auto"`, not
`"sequential"` — the quantization branch overwrites the sequential map. -/
theorem C2_counterexample :
    Except.map (fun kw => kwGet kw "device_map")
      (build_model_kwargs BaseModelAdapter envW "cuda" 2 true false)
      = Except.ok (some (Value.vStr "auto")) ∧
    some (Value.vStr "auto") ≠ some (Value.vStr "sequential") :=
  ⟨rfl, by decide⟩

/-- Claim C2 (amended): with a non-CPU device and `num_gpus > 1` (within the
probed device count), the plan carries a `max_memory` table whose entry `i`
is `floor(0.85 × probed available memory of device i)` rendered as a GiB
string, for every `i < num_gpus`; the device map is `"sequential"` unless
8-bit or 4-bit quantization is requested, in which case the quantization
branch overwrites it with `"auto"`. -/
theorem C2_multi_gpu_plan (adapter : Adapter) (env : CudaEnv) (device : String)
    (num_gpus : Nat) (load_in_8bit load_in_4bit : Bool)
    (hdev : device ≠ "cpu") (hn : 1 < num_gpus) (hle : num_gpus ≤ env.devices.length) :
    ∃ kw mm, build_model_kwargs adapter env device num_gpus load_in_8bit load_in_4bit
        = Except.ok kw ∧
      kwGet kw "max_memory" = some (Value.vMaxMemory mm) ∧
      mm.length = num_gpus ∧
      (∀ i (h2 : i < mm.length) (h3 : i < (get_gpu_memory env (some num_gpus)).length),
        mm.get ⟨i, h2⟩ = (i, gibEntry ((get_gpu_memory env (some num_gpus)).get ⟨i, h3⟩))) ∧
      (∀ q : ℚ, 0 ≤ q → gibEntry q = toString (Int.floor (q * (0.85 : ℚ))) ++ "GiB") ∧
      kwGet kw "device_map"
        = some (Value.vStr (if load_in_8bit || load_in_4bit then "auto" else "sequential")) := by
  have hn1 : num_gpus ≠ 1 := by omega
  have hlen : (get_gpu_memory env (some num_gpus)).length = num_gpus := by
    rw [length_get_gpu_memory]
    exact Nat.min_eq_left hle
  obtain ⟨mm, hmm, hmmlen, hmmget⟩ :=
    max_memory_entries_some (get_gpu_memory env (some num_gpus)) num_gpus (le_of_eq hlen.symm)
  have hgib : ∀ q : ℚ, 0 ≤ q → gibEntry q = toString (Int.floor (q * (0.85 : ℚ))) ++ "GiB" := by
    intro q hq0
    unfold gibEntry pyInt
    rw [if_pos (mul_nonneg hq0 (by norm_num))]
  have hb := build_model_kwargs_multi adapter env device num_gpus load_in_8bit load_in_4bit
    mm hdev hn1 hmm
  by_cases hquant : (load_in_8bit || load_in_4bit) = true
  · rw [if_pos hquant] at hb
    refine ⟨_, mm, hb, ?_, hmmlen, hmmget, hgib, ?_⟩
    · rw [kwGet_kwSet_ne _ _ _ _ ne_mm_dm, kwGet_kwSet_ne _ _ _ _ ne_mm_l4,
        kwGet_kwSet_ne _ _ _ _ ne_mm_l8, kwGet_kwSet_ne _ _ _ _ ne_mm_td,
        kwGet_kwSet_self]
    · rw [if_pos hquant, kwGet_kwSet_self]
  · rw [if_neg hquant] at hb
    refine ⟨_, mm, hb, ?_, hmmlen, hmmget, hgib, ?_⟩
    · rw [kwGet_kwSet_self]
    · rw [if_neg hquant, kwGet_kwSet_ne _ _ _ _ ne_dm_mm, kwGet_kwSet_self]

/-- Witness for C2_multi_gpu_plan at a concrete input. -/
theorem C2_multi_gpu_plan_witness :
    ("cuda" : String) ≠ "cpu" ∧ 1 < 2 ∧ 2 ≤ envW.devices.length ∧
    (∃ kw mm, build_model_kwargs BaseModelAdapter envW "cuda" 2 false false
        = Except.ok kw ∧
      kwGet kw "max_memory" = some (Value.vMaxMemory mm) ∧
      mm.length = 2 ∧
      (∀ i (h2 : i < mm.length) (h3 : i < (get_gpu_memory envW (some 2)).length),
        mm.get ⟨i, h2⟩ = (i, gibEntry ((get_gpu_memory envW (some 2)).get ⟨i, h3⟩))) ∧
      (∀ q : ℚ, 0 ≤ q → gibEntry q = toString (Int.floor (q * (0.85 : ℚ))) ++ "GiB") ∧
      kwGet kw "device_map"
        = some (Value.vStr (if false || false then "auto" else "sequential"))) :=
  ⟨by decide, by decide, by decide,
    C2_multi_gpu_plan BaseModelAdapter envW "cuda" 2 false false
      (by decide) (by decide) (by decide)⟩

/-! ## Claim C10: `num_gpus` beyond the detected device count -/

/-- Claim C10: the prober returns only `min(num_gpus, detected)` entries,
while the `max_memory` comprehension indexes `0 .. num_gpus - 1`; so with a
non-CPU device, `num_gpus ≠ 1` and more GPUs requested than detected, the
load-plan construction fails with the embedded `IndexError` rather than
degrading. -/
theorem C10_num_gpus_exceeds_devices (adapter : Adapter) (env : CudaEnv) (device : String)
    (num_gpus : Nat) (load_in_8bit load_in_4bit : Bool)
    (hdev : device ≠ "cpu") (hn : num_gpus ≠ 1) (hgt : env.devices.length < num_gpus) :
    (get_gpu_memory env (some num_gpus)).length = min num_gpus env.devices.length ∧
    (get_gpu_memory env (some num_gpus)).length < num_gpus ∧
    build_model_kwargs adapter env device num_gpus load_in_8bit load_in_4bit
      = Except.error PyError.indexError := by
  have hlen := length_get_gpu_memory env num_gpus
  have hsh : (get_gpu_memory env (some num_gpus)).length < num_gpus := by
    rw [hlen, Nat.min_eq_right (le_of_lt hgt)]
    exact hgt
  exact ⟨hlen, hsh,
    build_model_kwargs_multi_err adapter env device num_gpus load_in_8bit load_in_4bit
      hdev hn (max_memory_entries_none _ _ hsh)⟩

/-- Witness for C10_num_gpus_exceeds_devices: three GPUs requested, two present. -/
theorem C10_num_gpus_exceeds_devices_witness :
    ("cuda" : String) ≠ "cpu" ∧ (3 : Nat) ≠ 1 ∧ envW.devices.length < 3 ∧
    ((get_gpu_memory envW (some 3)).length = min 3 envW.devices.length ∧
     (get_gpu_memory envW (some 3)).length < 3 ∧
     build_model_kwargs BaseModelAdapter envW "cuda" 3 false false
       = Except.error PyError.indexError) :=
  ⟨by decide, by decide, by decide,
    C10_num_gpus_exceeds_devices BaseModelAdapter envW "cuda" 3 false false
      (by decide) (by decide) (by decide)⟩

/-! ## Claim C3: the 4-bit construction path -/

/-- Counterexample to claim C3 as stated: a CPU load with 4-bit quantization
requested still takes the quantized construction path, but the general load
plan's `torch_dtype` entry is `float32`, not `None` — the CPU branch never
reaches the quantization branch that clears it. -/
theorem C3_counterexample :
    Except.map (fun kw => kwGet kw "torch_dtype")
      (build_model_kwargs BaseModelAdapter ⟨[]⟩ "cpu" 1 false true)
      = Except.ok (some (Value.vDtype Dtype.float32)) ∧
    construct_model_call "zpn/llama-7b" [] true
      = ModelCall.quantized "zpn/llama-7b" Dtype.bfloat16
          { load_in_4bit := true
            bnb_4bit_compute_dtype := Dtype.bfloat16
            bnb_4bit_use_double_quant := true
            bnb_4bit_quant_type := "nf4" } ∧
    some (Value.vDtype Dtype.float32) ≠ some Value.vNone :=
  ⟨rfl, rfl, by decide⟩

/-- Claim C3 (amended): every 4-bit load builds the model through the
dedicated quantized call with fixed `bfloat16` compute precision, double
quantization and the `"nf4"` scheme; the call is independent of the merged
load-plan kwargs (they are not passed); and whenever the device is not
`"cpu"` and the plan is produced, its `torch_dtype` entry is `None`. -/
theorem C3_four_bit_path (model_name_or_path : String) (model_kwargs alt : Kwargs)
    (adapter : Adapter) (env : CudaEnv) (device : String) (num_gpus : Nat)
    (load_in_8bit : Bool) (hdev : device ≠ "cpu") :
    construct_model_call model_name_or_path model_kwargs true
      = ModelCall.quantized model_name_or_path Dtype.bfloat16
          { load_in_4bit := true
            bnb_4bit_compute_dtype := Dtype.bfloat16
            bnb_4bit_use_double_quant := true
            bnb_4bit_quant_type := "nf4" } ∧
    construct_model_call model_name_or_path model_kwargs true
      = construct_model_call model_name_or_path alt true ∧
    (∀ kw, build_model_kwargs adapter env device num_gpus load_in_8bit true = Except.ok kw →
      kwGet kw "torch_dtype" = some Value.vNone) := by
  refine ⟨rfl, rfl, ?_⟩
  intro kw hkw
  have hquant : (load_in_8bit || true) = true := by simp
  by_cases hn : num_gpus = 1
  · subst hn
    rw [build_model_kwargs_single adapter env device load_in_8bit true hdev,
      if_pos hquant] at hkw
    obtain rfl := Except.ok.inj hkw
    rw [kwGet_kwSet_ne _ _ _ _ ne_td_dm, kwGet_kwSet_ne _ _ _ _ ne_td_l4,
      kwGet_kwSet_ne _ _ _ _ ne_td_l8, kwGet_kwSet_self]
  · cases hmm : max_memory_entries (get_gpu_memory env (some num_gpus)) num_gpus with
    | none =>
      rw [build_model_kwargs_multi_err adapter env device num_gpus load_in_8bit true
        hdev hn hmm] at hkw
      exact absurd hkw (by simp)
    | some mm =>
      rw [build_model_kwargs_multi adapter env device num_gpus load_in_8bit true mm
        hdev hn hmm, if_pos hquant] at hkw
      obtain rfl := Except.ok.inj hkw
      rw [kwGet_kwSet_ne _ _ _ _ ne_td_dm, kwGet_kwSet_ne _ _ _ _ ne_td_l4,
        kwGet_kwSet_ne _ _ _ _ ne_td_l8, kwGet_kwSet_self]

/-- Witness for C3_four_bit_path at a concrete input. -/
theorem C3_four_bit_path_witness :
    ("cuda" : String) ≠ "cpu" ∧
    (construct_model_call "zpn/llama-7b" [("low_cpu_mem_usage", Value.vBool true)] true
      = ModelCall.quantized "zpn/llama-7b" Dtype.bfloat16
          { load_in_4bit := true
            bnb_4bit_compute_dtype := Dtype.bfloat16
            bnb_4bit_use_double_quant := true
            bnb_4bit_quant_type := "nf4" } ∧
     construct_model_call "zpn/llama-7b" [("low_cpu_mem_usage", Value.vBool true)] true
      = construct_model_call "zpn/llama-7b" [] true ∧
     (∀ kw, build_model_kwargs LlamaModelAdapter envW "cuda" 1 false true = Except.ok kw →
       kwGet kw "torch_dtype" = some Value.vNone)) :=
  ⟨by decide,
    C3_four_bit_path "zpn/llama-7b" [("low_cpu_mem_usage", Value.vBool true)] []
      LlamaModelAdapter envW "cuda" 1 false (by decide)⟩

/-! ## Claim C6: CPU loads -/

/-- Claim C6: a CPU load plan is exactly the adapter's build options with
`torch_dtype` forced to `float32`; it contains no quantization flags, no
device map and no memory table, regardless of the 8-bit/4-bit options; and
a completed CPU load never moves the model to an accelerator device. -/
theorem C6_cpu_load (w : World) (adapter : Adapter) (model_name_or_path : Option String)
    (adapter_model : Option String) (num_gpus : Nat) (load_in_8bit load_in_4bit : Bool)
    (quantize : Option Int) (hreg : adapter ∈ model_adapters) :
    build_model_kwargs adapter w.cuda "cpu" num_gpus load_in_8bit load_in_4bit
      = Except.ok (kwSet adapter.model_kwargs "torch_dtype" (Value.vDtype Dtype.float32)) ∧
    (∀ kw, build_model_kwargs adapter w.cuda "cpu" num_gpus load_in_8bit load_in_4bit
        = Except.ok kw →
      kwGet kw "torch_dtype" = some (Value.vDtype Dtype.float32) ∧
      kwHasKey kw "device_map" = false ∧
      kwHasKey kw "load_in_8bit" = false ∧
      kwHasKey kw "load_in_4bit" = false ∧
      kwHasKey kw "max_memory" = false) ∧
    (∀ r, adapter_load_model w adapter model_name_or_path adapter_model "cpu" num_gpus
        load_in_8bit load_in_4bit quantize = Except.ok r →
      r.moved_to = none) := by
  have hnokeys : kwHasKey adapter.model_kwargs "device_map" = false ∧
      kwHasKey adapter.model_kwargs "load_in_8bit" = false ∧
      kwHasKey adapter.model_kwargs "load_in_4bit" = false ∧
      kwHasKey adapter.model_kwargs "max_memory" = false := by
    simp only [model_adapters, List.mem_cons, List.not_mem_nil, or_false] at hreg
    rcases hreg with rfl | rfl | rfl | rfl | rfl | rfl <;>
      exact ⟨by decide, by decide, by decide, by decide⟩
  refine ⟨build_model_kwargs_cpu adapter w.cuda num_gpus load_in_8bit load_in_4bit, ?_, ?_⟩
  · intro kw hkw
    rw [build_model_kwargs_cpu] at hkw
    obtain rfl := Except.ok.inj hkw
    refine ⟨kwGet_kwSet_self _ _ _, ?_, ?_, ?_, ?_⟩
    · rw [kwHasKey_kwSet_ne _ _ _ _ ne_dm_td]
      exact hnokeys.1
    · rw [kwHasKey_kwSet_ne _ _ _ _ ne_l8_td]
      exact hnokeys.2.1
    · rw [kwHasKey_kwSet_ne _ _ _ _ ne_l4_td]
      exact hnokeys.2.2.1
    · rw [kwHasKey_kwSet_ne _ _ _ _ ne_mm_td]
      exact hnokeys.2.2.2
  · intro r hr
    simp only [adapter_load_model] at hr
    split at hr
    · exact absurd hr (by simp)
    · split at hr
      · exact absurd hr (by simp)
      · split at hr
        · exact absurd hr (by simp)
        · obtain rfl := Except.ok.inj hr
          simp

/-- A concrete world for witnesses: two GPUs, a tokenizer oracle that
always succeeds with handle 0, five tokens on each side. -/
def worldW : World where
  cuda := envW
  tokenizer_from_pretrained := fun _ _ => Except.ok 0
  tokenizer_len := fun _ => 5
  model_vocab_size := 5
  is_chatglm := false

/-- Witness for C6_cpu_load at a concrete input. -/
theorem C6_cpu_load_witness :
    BaseModelAdapter ∈ model_adapters ∧
    (build_model_kwargs BaseModelAdapter worldW.cuda "cpu" 1 false false
      = Except.ok (kwSet BaseModelAdapter.model_kwargs "torch_dtype"
          (Value.vDtype Dtype.float32)) ∧
     (∀ kw, build_model_kwargs BaseModelAdapter worldW.cuda "cpu" 1 false false
         = Except.ok kw →
       kwGet kw "torch_dtype" = some (Value.vDtype Dtype.float32) ∧
       kwHasKey kw "device_map" = false ∧
       kwHasKey kw "load_in_8bit" = false ∧
       kwHasKey kw "load_in_4bit" = false ∧
       kwHasKey kw "max_memory" = false) ∧
     (∀ r, adapter_load_model worldW BaseModelAdapter none none "cpu" 1
         false false (some 16) = Except.ok r →
       r.moved_to = none)) :=
  ⟨by simp [model_adapters],
    C6_cpu_load worldW BaseModelAdapter none none 1 false false (some 16)
      (by simp [model_adapters])⟩

/-! ## Claim C7: non-CPU precision default and quantization overrides -/

/-- Claim C7: on a non-CPU device, when the adapter supplies no explicit
`torch_dtype` override and no quantization is requested, the produced plan
defaults `torch_dtype` to `float16`; and when 8-bit or 4-bit quantization is
requested, the produced plan has `torch_dtype = None` and
`device_map = "auto"`. -/
theorem C7_noncpu_plan (adapter : Adapter) (env : CudaEnv) (device : String)
    (num_gpus : Nat) (load_in_8bit load_in_4bit : Bool) (hdev : device ≠ "cpu") :
    (kwHasKey adapter.model_kwargs "torch_dtype" = false → (load_in_8bit || load_in_4bit) = false →
      ∀ kw, build_model_kwargs adapter env device num_gpus load_in_8bit load_in_4bit
          = Except.ok kw →
        kwGet kw "torch_dtype" = some (Value.vDtype Dtype.float16)) ∧
    ((load_in_8bit || load_in_4bit) = true →
      ∀ kw, build_model_kwargs adapter env device num_gpus load_in_8bit load_in_4bit
          = Except.ok kw →
        kwGet kw "torch_dtype" = some Value.vNone ∧
        kwGet kw "device_map" = some (Value.vStr "auto")) := by
  constructor
  · intro hnodt hq kw hkw
    by_cases hn : num_gpus = 1
    · subst hn
      rw [build_model_kwargs_single adapter env device load_in_8bit load_in_4bit hdev,
        if_neg (by simp [hq]), if_neg (by simp [hnodt])] at hkw
      obtain rfl := Except.ok.inj hkw
      exact kwGet_kwSet_self _ _ _
    · cases hmm : max_memory_entries (get_gpu_memory env (some num_gpus)) num_gpus with
      | none =>
        rw [build_model_kwargs_multi_err adapter env device num_gpus load_in_8bit load_in_4bit
          hdev hn hmm] at hkw
        exact absurd hkw (by simp)
      | some mm =>
        rw [build_model_kwargs_multi adapter env device num_gpus load_in_8bit load_in_4bit mm
          hdev hn hmm, if_neg (by simp [hq]), if_neg (by simp [hnodt])] at hkw
        obtain rfl := Except.ok.inj hkw
        rw [kwGet_kwSet_ne _ _ _ _ ne_td_mm, kwGet_kwSet_ne _ _ _ _ ne_td_dm,
          kwGet_kwSet_ne _ _ _ _ ne_td_dm, kwGet_kwSet_self]
  · intro hq kw hkw
    by_cases hn : num_gpus = 1
    · subst hn
      rw [build_model_kwargs_single adapter env device load_in_8bit load_in_4bit hdev,
        if_pos hq] at hkw
      obtain rfl := Except.ok.inj hkw
      refine ⟨?_, kwGet_kwSet_self _ _ _⟩
      rw [kwGet_kwSet_ne _ _ _ _ ne_td_dm, kwGet_kwSet_ne _ _ _ _ ne_td_l4,
        kwGet_kwSet_ne _ _ _ _ ne_td_l8, kwGet_kwSet_self]
    · cases hmm : max_memory_entries (get_gpu_memory env (some num_gpus)) num_gpus with
      | none =>
        rw [build_model_kwargs_multi_err adapter env device num_gpus load_in_8bit load_in_4bit
          hdev hn hmm] at hkw
        exact absurd hkw (by simp)
      | some mm =>
        rw [build_model_kwargs_multi adapter env device num_gpus load_in_8bit load_in_4bit mm
          hdev hn hmm, if_pos hq] at hkw
        obtain rfl := Except.ok.inj hkw
        refine ⟨?_, kwGet_kwSet_self _ _ _⟩
        rw [kwGet_kwSet_ne _ _ _ _ ne_td_dm, kwGet_kwSet_ne _ _ _ _ ne_td_l4,
          kwGet_kwSet_ne _ _ _ _ ne_td_l8, kwGet_kwSet_self]

/-- Witness for C7_noncpu_plan at a concrete input. -/
theorem C7_noncpu_plan_witness :
    ("cuda" : String) ≠ "cpu" ∧
    ((kwHasKey BaseModelAdapter.model_kwargs "torch_dtype" = false → (false || false) = false →
      ∀ kw, build_model_kwargs BaseModelAdapter envW "cuda" 1 false false = Except.ok kw →
        kwGet kw "torch_dtype" = some (Value.vDtype Dtype.float16)) ∧
     ((false || false) = true →
      ∀ kw, build_model_kwargs BaseModelAdapter envW "cuda" 1 false false = Except.ok kw →
        kwGet kw "torch_dtype" = some Value.vNone ∧
        kwGet kw "device_map" = some (Value.vStr "auto"))) :=
  ⟨by decide, C7_noncpu_plan BaseModelAdapter envW "cuda" 1 false false (by decide)⟩

/-! ## Claim C4: vocabulary reconciliation -/

/-- Claim C4: in a load with a fine-tuning adapter location and a
non-chatglm model, nothing happens and no assertion fires when the
vocabulary sizes are equal; the embeddings are resized to the tokenizer
size exactly when the tokenizer vocabulary is strictly larger; and the load
halts with the assertion failure, returning no model, when the model
vocabulary is strictly larger. -/
theorem C4_vocab_reconciliation (w : World) (adapter : Adapter) (path am : String)
    (device : String) (num_gpus : Nat) (load_in_8bit load_in_4bit : Bool)
    (quantize : Option Int) (tokenizer : Nat) (kw : Kwargs)
    (hglm : w.is_chatglm = false)
    (htok : tokenizer_with_fallback
      (fun p => w.tokenizer_from_pretrained p adapter.tokenizer_kwargs) path (some am)
      = Except.ok tokenizer)
    (hplan : build_model_kwargs adapter w.cuda device num_gpus load_in_8bit load_in_4bit
      = Except.ok kw) :
    (w.tokenizer_len tokenizer = w.model_vocab_size →
      ∃ r, adapter_load_model w adapter (some path) (some am) device num_gpus
          load_in_8bit load_in_4bit quantize = Except.ok r ∧
        r.vocab_action = VocabAction.noop) ∧
    (w.model_vocab_size < w.tokenizer_len tokenizer →
      ∃ r, adapter_load_model w adapter (some path) (some am) device num_gpus
          load_in_8bit load_in_4bit quantize = Except.ok r ∧
        r.vocab_action = VocabAction.resize (w.tokenizer_len tokenizer)) ∧
    (w.tokenizer_len tokenizer < w.model_vocab_size →
      adapter_load_model w adapter (some path) (some am) device num_gpus
          load_in_8bit load_in_4bit quantize = Except.error PyError.assertionError) := by
  refine ⟨?_, ?_, ?_⟩
  · intro heq
    have hvocab : vocab_reconciliation (some am) w.is_chatglm w.model_vocab_size
        (w.tokenizer_len tokenizer) = Except.ok VocabAction.noop := by
      simp [vocab_reconciliation, hglm, heq]
    simp only [adapter_load_model, htok, hplan, hvocab]
    exact ⟨_, rfl, rfl⟩
  · intro hlt
    have hvocab : vocab_reconciliation (some am) w.is_chatglm w.model_vocab_size
        (w.tokenizer_len tokenizer)
        = Except.ok (VocabAction.resize (w.tokenizer_len tokenizer)) := by
      simp [vocab_reconciliation, hglm, Nat.ne_of_lt hlt, hlt]
    simp only [adapter_load_model, htok, hplan, hvocab]
    exact ⟨_, rfl, rfl⟩
  · intro hgt
    have hvocab : vocab_reconciliation (some am) w.is_chatglm w.model_vocab_size
        (w.tokenizer_len tokenizer) = Except.error PyError.assertionError := by
      simp [vocab_reconciliation, hglm, Nat.ne_of_gt hgt, Nat.not_lt.mpr (le_of_lt hgt),
        Nat.lt_irrefl]
    simp only [adapter_load_model, htok, hplan, hvocab]

/-- Witness for C4_vocab_reconciliation at a concrete input. -/
theorem C4_vocab_reconciliation_witness :
    worldW.is_chatglm = false ∧
    tokenizer_with_fallback
      (fun p => worldW.tokenizer_from_pretrained p BaseModelAdapter.tokenizer_kwargs)
      "zpn/llama-7b" (some "my-lora") = Except.ok 0 ∧
    build_model_kwargs BaseModelAdapter worldW.cuda "cpu" 1 false false
      = Except.ok [("torch_dtype", Value.vDtype Dtype.float32)] ∧
    ((worldW.tokenizer_len 0 = worldW.model_vocab_size →
      ∃ r, adapter_load_model worldW BaseModelAdapter (some "zpn/llama-7b") (some "my-lora")
          "cpu" 1 false false (some 16) = Except.ok r ∧
        r.vocab_action = VocabAction.noop) ∧
    (worldW.model_vocab_size < worldW.tokenizer_len 0 →
      ∃ r, adapter_load_model worldW BaseModelAdapter (some "zpn/llama-7b") (some "my-lora")
          "cpu" 1 false false (some 16) = Except.ok r ∧
        r.vocab_action = VocabAction.resize (worldW.tokenizer_len 0)) ∧
    (worldW.tokenizer_len 0 < worldW.model_vocab_size →
      adapter_load_model worldW BaseModelAdapter (some "zpn/llama-7b") (some "my-lora")
          "cpu" 1 false false (some 16) = Except.error PyError.assertionError)) :=
  ⟨rfl, rfl, rfl,
    C4_vocab_reconciliation worldW BaseModelAdapter "zpn/llama-7b" "my-lora" "cpu" 1
      false false (some 16) 0 [("torch_dtype", Value.vDtype Dtype.float32)] rfl rfl rfl⟩

/-! ## Claim C5: tokenizer construction fallback -/

/-- Claim C5: with a fine-tuning adapter location supplied, tokenizer
construction is attempted there first (a success is returned as-is); a
not-found failure of that first attempt is caught and construction is
retried from the base model location, whose outcome — success or failure —
is what the caller sees. -/
theorem C5_tokenizer_fallback (from_pretrained : String → Except PyError Nat)
    (model_name_or_path am : String) :
    (∀ t, from_pretrained am = Except.ok t →
      tokenizer_with_fallback from_pretrained model_name_or_path (some am) = Except.ok t) ∧
    (from_pretrained am = Except.error PyError.osError →
      tokenizer_with_fallback from_pretrained model_name_or_path (some am)
        = from_pretrained model_name_or_path) := by
  constructor
  · intro t ht
    simp [tokenizer_with_fallback, ht]
  · intro herr
    simp [tokenizer_with_fallback, herr]

/-- Witness for C5_tokenizer_fallback: a first attempt that fails with the
not-found error, and a second attempt that succeeds. -/
theorem C5_tokenizer_fallback_witness :
    ((fun p => if p = "my-lora" then Except.error PyError.osError else Except.ok 7)
        "my-lora" = Except.error PyError.osError) ∧
    tokenizer_with_fallback
      (fun p => if p = "my-lora" then Except.error PyError.osError else Except.ok 7)
      "zpn/llama-7b" (some "my-lora")
      = (fun p => if p = "my-lora" then Except.error PyError.osError else Except.ok 7)
          "zpn/llama-7b" :=
  ⟨rfl,
    (C5_tokenizer_fallback
      (fun p => if p = "my-lora" then Except.error PyError.osError else Except.ok 7)
      "zpn/llama-7b" "my-lora").2 rfl⟩

/-! ## Claim C9: no mutation of state shared across calls

The store-level run appends exactly one fresh dict object and mutates only
it; the registry and the adapters are immutable values of the embedding, so
the only aliasing risk the source runs — in-place update of the mapping
obtained from the `model_kwargs` property — is confined to the freshly
allocated object. -/

theorem Store.read_concat (l : List Kwargs) (d : Kwargs) :
    Store.read ⟨l ++ [d]⟩ l.length = d := by
  simp [Store.read, List.getElem?_concat_length]

theorem Store.update_concat (l : List Kwargs) (d : Kwargs) (f : Kwargs → Kwargs) :
    Store.update ⟨l ++ [d]⟩ l.length f = ⟨l ++ [f d]⟩ := by
  simp [Store.update, Store.write, Store.read_concat,
    List.set_append_right _ _ (le_refl l.length)]

theorem build_model_kwargs_st_spec (s : Store) (adapter : Adapter) (env : CudaEnv)
    (device : String) (num_gpus : Nat) (load_in_8bit load_in_4bit : Bool) :
    build_model_kwargs_st s adapter env device num_gpus load_in_8bit load_in_4bit
      = match build_model_kwargs adapter env device num_gpus load_in_8bit load_in_4bit with
        | Except.ok d => (⟨s.dicts ++ [d]⟩, Except.ok s.dicts.length)
        | Except.error e =>
            (⟨s.dicts ++ [kwSet (kwSet
              (if kwHasKey adapter.model_kwargs "torch_dtype" then adapter.model_kwargs
               else kwSet adapter.model_kwargs "torch_dtype" (Value.vDtype Dtype.float16))
              "device_map" (Value.vStr "auto")) "device_map" (Value.vStr "sequential")]⟩,
             Except.error e) := by
  by_cases hdev : device = "cpu"
  · simp [build_model_kwargs_st, build_model_kwargs, Store.alloc, Store.update_concat,
      Store.read_concat, hdev]
  · by_cases hdt : kwHasKey adapter.model_kwargs "torch_dtype" = true
    · by_cases hn : num_gpus ≠ 1
      · cases hmm : max_memory_entries (get_gpu_memory env (some num_gpus)) num_gpus with
        | none =>
          simp [build_model_kwargs_st, build_model_kwargs, Store.alloc, Store.update_concat,
            Store.read_concat, hdev, hdt, hn, hmm]
        | some mm =>
          by_cases hq : (load_in_8bit || load_in_4bit) = true <;>
            simp [build_model_kwargs_st, build_model_kwargs, Store.alloc, Store.update_concat,
              Store.read_concat, hdev, hdt, hn, hmm, hq]
      · by_cases hq : (load_in_8bit || load_in_4bit) = true <;>
          simp [build_model_kwargs_st, build_model_kwargs, Store.alloc, Store.update_concat,
            Store.read_concat, hdev, hdt, hn, hq]
    · rw [Bool.not_eq_true] at hdt
      by_cases hn : num_gpus ≠ 1
      · cases hmm : max_memory_entries (get_gpu_memory env (some num_gpus)) num_gpus with
        | none =>
          simp [build_model_kwargs_st, build_model_kwargs, Store.alloc, Store.update_concat,
            Store.read_concat, hdev, hdt, hn, hmm]
        | some mm =>
          by_cases hq : (load_in_8bit || load_in_4bit) = true <;>
            simp [build_model_kwargs_st, build_model_kwargs, Store.alloc, Store.update_concat,
              Store.read_concat, hdev, hdt, hn, hmm, hq]
      · by_cases hq : (load_in_8bit || load_in_4bit) = true <;>
          simp [build_model_kwargs_st, build_model_kwargs, Store.alloc, Store.update_concat,
            Store.read_concat, hdev, hdt, hn, hq]

/-- Claim C9: a load-plan construction mutates no dict object that existed
before the call — every pre-existing store entry reads back unchanged — and
reading the produced object back gives exactly the store-independent pure
plan, so a subsequent load observes the same adapter options; the registry
and the adapter records are immutable values of the embedding. -/
theorem C9_no_cross_call_mutation (s : Store) (adapter : Adapter) (env : CudaEnv)
    (device : String) (num_gpus : Nat) (load_in_8bit load_in_4bit : Bool) :
    (∀ i, i < s.dicts.length →
      (build_model_kwargs_st s adapter env device num_gpus
        load_in_8bit load_in_4bit).1.dicts.get? i = s.dicts.get? i) ∧
    Except.map
        (fun a => Store.read (build_model_kwargs_st s adapter env device num_gpus
          load_in_8bit load_in_4bit).1 a)
        (build_model_kwargs_st s adapter env device num_gpus load_in_8bit load_in_4bit).2
      = build_model_kwargs adapter env device num_gpus load_in_8bit load_in_4bit := by
  rw [build_model_kwargs_st_spec]
  cases hb : build_model_kwargs adapter env device num_gpus load_in_8bit load_in_4bit with
  | ok d =>
    refine ⟨?_, ?_⟩
    · intro i hi
      simp only [List.get?_eq_getElem?]
      exact List.getElem?_append_left hi
    · simp [Except.map, Store.read_concat]
  | error e =>
    refine ⟨?_, ?_⟩
    · intro i hi
      simp only [List.get?_eq_getElem?]
      exact List.getElem?_append_left hi
    · simp [Except.map]

/-- Witness for C9_no_cross_call_mutation: a store already holding one dict. -/
theorem C9_no_cross_call_mutation_witness :
    (0 : Nat) < (⟨[[("low_cpu_mem_usage", Value.vBool true)]]⟩ : Store).dicts.length ∧
    (build_model_kwargs_st ⟨[[("low_cpu_mem_usage", Value.vBool true)]]⟩ BaseModelAdapter
        envW "cuda" 2 true false).1.dicts.get? 0
      = (⟨[[("low_cpu_mem_usage", Value.vBool true)]]⟩ : Store).dicts.get? 0 :=
  ⟨by decide,
    (C9_no_cross_call_mutation ⟨[[("low_cpu_mem_usage", Value.vBool true)]]⟩
      BaseModelAdapter envW "cuda" 2 true false).1 0 (by decide)⟩
